import Mathlib

/-!
Shallow embedding of the system-information server
(src/system_info_server.py) and verification of its specification.

Modelling conventions:
* Python numbers that hold measured quantities (bytes ratios, percentages,
  timestamps) are embedded as exact rationals; the decimal rounding helper
  round(x, n) is modelled as round-half-to-even on exact rationals.
* OS queries (psutil, platform, subprocess) are passed in as explicit
  provider values; a query that can raise is an Except value, with the
  error payload standing for the exception message.
* Text processing is done on String via List Char helpers written with
  structural recursion, so that closed instances evaluate in the kernel.
-/

namespace SystemInfoServer

/-- Round-half-to-even of a rational to an integer, the tie-breaking rule
Python uses for round(). -/
def roundHalfEven (x : ℚ) : ℤ :=
  let f := ⌊x⌋
  let r := x - f
  if r < 1 / 2 then f
  else if 1 / 2 < r then f + 1
  else if f % 2 = 0 then f else f + 1

/-- Python round(q, n): round q to n decimal places, half-to-even. -/
def pyRound (q : ℚ) (n : ℕ) : ℚ :=
  (roundHalfEven (q * 10 ^ n) : ℚ) / 10 ^ n

/-- Embeds bytes_to_gb: round(bytes_value / (1024**3), 2). -/
def bytes_to_gb (bytes_value : ℕ) : ℚ :=
  pyRound ((bytes_value : ℚ) / 1024 ^ 3) 2

/-- Result shape of get_current_time (fields of the TimeInfo model). -/
structure TimeInfo where
  current_time_ist : String
  current_time_utc : String
  timezone : String
  timestamp : ℚ
deriving DecidableEq

/-- Result shape of get_memory_usage (fields of the MemoryInfo model). -/
structure MemoryInfo where
  total_gb : ℚ
  available_gb : ℚ
  used_gb : ℚ
  percentage_used : ℚ
  free_gb : ℚ
deriving DecidableEq

/-- Result shape of get_cpu_usage (fields of the CPUInfo model). -/
structure CPUInfo where
  cpu_percent : ℚ
  cpu_count : ℤ
  cpu_freq_current : ℚ
  load_average : List ℚ
deriving DecidableEq

/-- Result shape of get_disk_usage (fields of the DiskInfo model). -/
structure DiskInfo where
  total_gb : ℚ
  used_gb : ℚ
  free_gb : ℚ
  percentage_used : ℚ
deriving DecidableEq

/-- Result shape of get_system_info (fields of the SystemInfo model);
platform_info is the fixed-key string map, embedded as a key-value list. -/
structure SystemInfo where
  time_info : TimeInfo
  memory_info : MemoryInfo
  cpu_info : CPUInfo
  disk_info : DiskInfo
  platform_info : List (String × String)
deriving DecidableEq

/-- Result shape of get_port_info_netstat (NetstatPortInfo model). -/
structure NetstatPortInfo where
  port : ℤ
  pid : Option ℤ
  protocol : Option String
  local_address : Option String
  foreign_address : Option String
  state : Option String
  raw_line : String
deriving DecidableEq

/-- Provider value for psutil.virtual_memory(). -/
structure VirtualMemory where
  total : ℕ
  available : ℕ
  used : ℕ
  free : ℕ
  percent : ℚ
deriving DecidableEq

/-- Provider values consumed by get_cpu_usage: the sampled cpu percent,
the core count, cpu_freq current frequency (none when psutil.cpu_freq()
is falsy) and getloadavg (none when it raises AttributeError/OSError). -/
structure CpuProviderSample where
  cpu_percent_sample : ℚ
  cpu_count : ℤ
  cpu_freq_current : Option ℚ
  loadavg : Option (ℚ × ℚ × ℚ)
deriving DecidableEq

/-- Provider value for psutil.disk_usage(path): raw byte counts. -/
structure DiskUsageBytes where
  total : ℕ
  used : ℕ
  free : ℕ
deriving DecidableEq

/-- Embeds get_memory_usage applied to a virtual_memory provider value. -/
def get_memory_usage (memory : VirtualMemory) : MemoryInfo :=
  { total_gb := bytes_to_gb memory.total
    available_gb := bytes_to_gb memory.available
    used_gb := bytes_to_gb memory.used
    percentage_used := pyRound memory.percent 1
    free_gb := bytes_to_gb memory.free }

/-- Embeds get_cpu_usage applied to its provider values.  The source
substitutes load_avg = [0.0, 0.0, 0.0] when psutil.getloadavg raises
(AttributeError/OSError on platforms without a load average), then rounds
each entry to 2 decimals. -/
def get_cpu_usage (p : CpuProviderSample) : CPUInfo :=
  let current_freq : ℚ := p.cpu_freq_current.getD 0
  let load_avg : List ℚ :=
    match p.loadavg with
    | some (a, b, c) => [a, b, c]
    | none => [0, 0, 0]
  { cpu_percent := pyRound p.cpu_percent_sample 1
    cpu_count := p.cpu_count
    cpu_freq_current := pyRound current_freq 1
    load_average := load_avg.map (fun x => pyRound x 2) }

/-- Embeds get_disk_usage applied to a disk_usage provider value.  Note
the percentage is computed from the raw byte counts, not from the rounded
GB fields. -/
def get_disk_usage (disk_usage : DiskUsageBytes) : DiskInfo :=
  { total_gb := bytes_to_gb disk_usage.total
    used_gb := bytes_to_gb disk_usage.used
    free_gb := bytes_to_gb disk_usage.free
    percentage_used := pyRound (((disk_usage.used : ℚ) / (disk_usage.total : ℚ)) * 100) 1 }

/-- Embeds get_system_info.  Each collector call in the source may raise
(its psutil queries propagate), so each collector outcome is an Except
value; the aggregator body evaluates them in source order and the first
failure propagates, exactly like Python keyword-argument evaluation. -/
def get_system_info (t : Except String TimeInfo) (m : Except String VirtualMemory)
    (c : Except String CpuProviderSample) (d : Except String DiskUsageBytes)
    (pinfo : List (String × String)) : Except String SystemInfo := do
  let time_info ← t
  let memory ← m
  let cpu ← c
  let disk ← d
  pure { time_info := time_info
         memory_info := get_memory_usage memory
         cpu_info := get_cpu_usage cpu
         disk_info := get_disk_usage disk
         platform_info := pinfo }

/-- Python float modulo for the uptime computation: a % b = a - b * floor(a / b). -/
def pyMod (a b : ℚ) : ℚ := a - b * ⌊a / b⌋

/-- Embeds get_system_uptime.  nowTs is datetime.now().timestamp(); the
boot argument is psutil.boot_time(), an Except because the try block
converts any provider exception into the failure string. -/
def get_system_uptime (nowTs : ℚ) : Except String ℚ → String
  | Except.ok boot_time =>
    let uptime_seconds := nowTs - boot_time
    let days : ℤ := ⌊uptime_seconds / 86400⌋
    let hours : ℤ := ⌊pyMod uptime_seconds 86400 / 3600⌋
    let minutes : ℤ := ⌊pyMod uptime_seconds 3600 / 60⌋
    s!"System uptime: {days} days, {hours} hours, {minutes} minutes"
  | Except.error e => s!"Unable to get uptime: {e}"

/-- Whitespace class of the Python regex \s and of str.strip (ASCII range:
space, tab, newline, carriage return, vertical tab, form feed). -/
def isWsChar (c : Char) : Bool :=
  c = ' ' || c = '\t' || c = '\n' || c = '\r' || c = '\x0b' || c = '\x0c'

/-- Python str.strip(): drop leading and trailing whitespace. -/
def stripChars (cs : List Char) : List Char :=
  ((cs.dropWhile isWsChar).reverse.dropWhile isWsChar).reverse

/-- Python str.strip() on String. -/
def pyStrip (s : String) : String := String.mk (stripChars s.toList)

/-- Accumulator pass splitting a char list on runs of whitespace. -/
def splitWsAux : List Char → List Char → List (List Char)
  | [], acc => if acc.isEmpty then [] else [acc.reverse]
  | c :: cs, acc =>
    if isWsChar c then
      if acc.isEmpty then splitWsAux cs []
      else acc.reverse :: splitWsAux cs []
    else splitWsAux cs (c :: acc)

/-- Embeds re.split(r"\s+", s): on the empty string the regex split
returns [""], otherwise (the argument being already stripped at the call
site) it returns the maximal runs of non-whitespace characters. -/
def reSplitWs (s : String) : List String :=
  if s.toList.isEmpty then [""]
  else (splitWsAux s.toList []).map String.mk

/-- Accumulator pass splitting a char list at newline characters, with no
trailing empty line, like Python str.splitlines for newline-separated
text (the \r\n and exotic-terminator cases are not modelled; the claims
only use newline-separated fixture output). -/
def splitlinesAux : List Char → List Char → List (List Char)
  | [], acc => if acc.isEmpty then [] else [acc.reverse]
  | c :: cs, acc =>
    if c = '\n' then acc.reverse :: splitlinesAux cs []
    else splitlinesAux cs (c :: acc)

/-- Python str.splitlines() on String. -/
def pySplitlines (s : String) : List String :=
  (splitlinesAux s.toList []).map String.mk

/-- Bool test: the first list is an initial segment of the second. -/
def listStartsWith : List Char → List Char → Bool
  | [], _ => true
  | _ :: _, [] => false
  | a :: as, b :: bs => a = b && listStartsWith as bs

/-- Bool test: nd occurs as a contiguous sublist of hay. -/
def containsSub (hay nd : List Char) : Bool :=
  match hay with
  | [] => nd.isEmpty
  | _ :: cs => listStartsWith nd hay || containsSub cs nd

/-- Python (nd in hay) substring containment on String. -/
def strContains (hay nd : String) : Bool := containsSub hay.toList nd.toList

/-- ASCII lower-casing of one character (enough for the protocol tokens
compared against "tcp"). -/
def toLowerChar (c : Char) : Char :=
  if 65 ≤ c.toNat ∧ c.toNat ≤ 90 then Char.ofNat (c.toNat + 32) else c

/-- Python str.lower() on String (ASCII range). -/
def pyLower (s : String) : String := String.mk (s.toList.map toLowerChar)

/-- Value of a nonempty all-digit char list, none otherwise. -/
def digitsToNat : List Char → Option ℕ
  | [] => none
  | cs =>
    if cs.all (fun c => c.isDigit) then
      some (cs.foldl (fun a c => a * 10 + (c.toNat - 48)) 0)
    else none

/-- Python int(s) on a whitespace-free token: optional sign followed by a
nonempty digit string; none models the ValueError (digit-group
underscores and non-ASCII digits are not modelled, the claims only use
plain tokens). -/
def pyIntOfString (s : String) : Option ℤ :=
  match s.toList with
  | [] => none
  | c :: rest =>
    if c = '-' then (digitsToNat rest).map (fun n => -(n : ℤ))
    else if c = '+' then (digitsToNat rest).map (fun n => (n : ℤ))
    else (digitsToNat (c :: rest)).map (fun n => (n : ℤ))

/-- Python int(s), with the ValueError message as the error payload (the
source interpolates str(e) into the sentinel; the actual CPython message
additionally quotes the literal, which is not modelled). -/
def pyInt (s : String) : Except String ℤ :=
  match pyIntOfString s with
  | some n => Except.ok n
  | none => Except.error ("invalid literal for int() with base 10: " ++ s)

/-- The literal substring the port scan looks for: f":{port} ". -/
def needle (port : ℤ) : String := s!":{port} "

/-- The all-absent record returned when no line matches. -/
def notFoundRecord (port : ℤ) : NetstatPortInfo :=
  { port := port, pid := none, protocol := none, local_address := none
    foreign_address := none, state := none, raw_line := "Not found" }

/-- The all-absent record built in the except branch: raw_line carries
f"Error: {str(e)}". -/
def errorRecord (port : ℤ) (e : String) : NetstatPortInfo :=
  { port := port, pid := none, protocol := none, local_address := none
    foreign_address := none, state := none, raw_line := "Error: " ++ e }

/-- The scanning loop of get_port_info_netstat over the splitlines of the
command output, i.e. the part of the try block after the subprocess call.
An Except.error result models an exception escaping the loop (only
int(parts[-1]) can raise there); it is caught by the enclosing handler in
get_port_info_netstat. -/
def portScanBody (port : ℤ) : List String → Except String NetstatPortInfo
  | [] => Except.ok (notFoundRecord port)
  | line :: rest =>
    if strContains line (needle port) = true then
      if 5 ≤ (reSplitWs (pyStrip line)).length then
        match pyInt ((reSplitWs (pyStrip line)).getLastD "") with
        | Except.ok pid =>
          Except.ok
            { port := port
              pid := some pid
              protocol := some ((reSplitWs (pyStrip line)).getD 0 "")
              local_address := some ((reSplitWs (pyStrip line)).getD 1 "")
              foreign_address := some ((reSplitWs (pyStrip line)).getD 2 "")
              state := some (if pyLower ((reSplitWs (pyStrip line)).getD 0 "") = "tcp"
                             then (reSplitWs (pyStrip line)).getD 3 "" else "")
              raw_line := pyStrip line }
        | Except.error e => Except.error e
      else portScanBody port rest
    else portScanBody port rest

/-- Embeds get_port_info_netstat.  The cmd argument is the outcome of the
subprocess.run call: Except.error for a launch/IO exception, Except.ok
with the captured stdout text otherwise.  The try/except wraps the whole
body, so both a launch failure and an exception from the scanning loop
land in the errorRecord branch; the function itself never raises. -/
def get_port_info_netstat (port : ℤ) : Except String String → NetstatPortInfo
  | Except.error e => errorRecord port e
  | Except.ok output =>
    match portScanBody port (pySplitlines output) with
    | Except.ok r => r
    | Except.error e => errorRecord port e

/-- The spec formula for the unit converter, written from the words of the
spec: result = n / 2^30 rounded to 2 decimal places (to be compared with
bytes_to_gb, which the source writes with 1024**3). -/
def bytesToGigabytes_spec (n : ℕ) : ℚ := pyRound ((n : ℚ) / 2 ^ 30) 2

/-- Disk fixture for the percentage claims: 1 GiB total, 7516193 bytes
used (about 0.0070000002 GiB, which rounds up to the 0.01 GB field). -/
def diskFixtureCex : DiskUsageBytes :=
  { total := 2 ^ 30, used := 7516193, free := 2 ^ 30 - 7516193 }

/-- Time fixture for the aggregator witness. -/
def timeFix : TimeInfo :=
  { current_time_ist := "2025-01-01 05:30:00 IST"
    current_time_utc := "2025-01-01 00:00:00 UTC"
    timezone := "Asia/Kolkata (IST)"
    timestamp := 1735689600 }

/-- Memory fixture for the aggregator witness. -/
def memFix : VirtualMemory :=
  { total := 8589934592, available := 4294967296, used := 4294967296
    free := 4294967296, percent := 50 }

/-- CPU fixture for the aggregator witness. -/
def cpuFix : CpuProviderSample :=
  { cpu_percent_sample := 25, cpu_count := 4, cpu_freq_current := none, loadavg := none }

/-- Disk fixture for the aggregator witness. -/
def diskFix : DiskUsageBytes :=
  { total := 2 ^ 30, used := 2 ^ 29, free := 2 ^ 29 }

/-! ## Helper lemmas -/

theorem roundHalfEven_eq_low (x : ℚ) (f : ℤ) (h1 : (f : ℚ) ≤ x) (h2 : x < f + 1)
    (hr : x - f < 1 / 2) : roundHalfEven x = f := by
  have hf : ⌊x⌋ = f := Int.floor_eq_iff.mpr ⟨h1, h2⟩
  simp only [roundHalfEven, hf]
  rw [if_pos hr]

theorem roundHalfEven_eq_high (x : ℚ) (f : ℤ) (h1 : (f : ℚ) ≤ x) (h2 : x < f + 1)
    (hr : 1 / 2 < x - f) : roundHalfEven x = f + 1 := by
  have hf : ⌊x⌋ = f := Int.floor_eq_iff.mpr ⟨h1, h2⟩
  simp only [roundHalfEven, hf]
  rw [if_neg (by linarith), if_pos hr]

theorem pyRound_eq_low (q : ℚ) (n : ℕ) (f : ℤ) (h1 : (f : ℚ) ≤ q * 10 ^ n)
    (h2 : q * 10 ^ n < f + 1) (hr : q * 10 ^ n - f < 1 / 2) :
    pyRound q n = (f : ℚ) / 10 ^ n := by
  rw [pyRound, roundHalfEven_eq_low (q * 10 ^ n) f h1 h2 hr]

theorem pyRound_eq_high (q : ℚ) (n : ℕ) (f : ℤ) (h1 : (f : ℚ) ≤ q * 10 ^ n)
    (h2 : q * 10 ^ n < f + 1) (hr : 1 / 2 < q * 10 ^ n - f) :
    pyRound q n = ((f + 1 : ℤ) : ℚ) / 10 ^ n := by
  rw [pyRound, roundHalfEven_eq_high (q * 10 ^ n) f h1 h2 hr]

theorem portScanBody_cons_skip (port : ℤ) (line : String) (rest : List String)
    (h : strContains line (needle port) = false ∨ (reSplitWs (pyStrip line)).length < 5) :
    portScanBody port (line :: rest) = portScanBody port rest := by
  cases hc : strContains line (needle port) with
  | false =>
    simp only [portScanBody]
    rw [if_neg (by simp [hc])]
  | true =>
    have hlen : (reSplitWs (pyStrip line)).length < 5 := by
      rcases h with h | h
      · rw [hc] at h; cases h
      · exact h
    simp only [portScanBody]
    rw [if_pos hc, if_neg (Nat.not_le.mpr hlen)]

theorem portScanBody_skip_all (port : ℤ) (pre rest : List String)
    (h : ∀ l ∈ pre, strContains l (needle port) = false ∨
      (reSplitWs (pyStrip l)).length < 5) :
    portScanBody port (pre ++ rest) = portScanBody port rest := by
  induction pre with
  | nil => rfl
  | cons a as ih =>
    rw [List.cons_append, portScanBody_cons_skip port a (as ++ rest) (h a (by simp)),
      ih (fun l hl => h l (by simp [hl]))]

theorem uptime_ok_90061 (now : ℚ) :
    get_system_uptime now (Except.ok (now - 90061)) =
      "System uptime: 1 days, 1 hours, 1 minutes" := by
  have hu : now - (now - 90061) = (90061 : ℚ) := by ring
  have h1 : ⌊(90061 : ℚ) / 86400⌋ = 1 := by rw [Int.floor_eq_iff]; norm_num
  have hm1 : pyMod 90061 86400 = 3661 := by rw [pyMod, h1]; norm_num
  have h2 : ⌊(3661 : ℚ) / 3600⌋ = 1 := by rw [Int.floor_eq_iff]; norm_num
  have h3 : ⌊(90061 : ℚ) / 3600⌋ = 25 := by rw [Int.floor_eq_iff]; norm_num
  have hm2 : pyMod 90061 3600 = 61 := by rw [pyMod, h3]; norm_num
  have h4 : ⌊(61 : ℚ) / 60⌋ = 1 := by rw [Int.floor_eq_iff]; norm_num
  simp only [get_system_uptime, hu, hm1, hm2, h1, h2, h4]
  decide

/-! ## Claim theorems -/

/-- C4: for every non-negative byte count n, bytes_to_gb returns exactly
round(n / 2^30, 2): the source expression round(n / 1024**3, 2) agrees
with the spec formula written over 2^30. -/
theorem bytes_to_gb_matches_spec (n : ℕ) : bytes_to_gb n = bytesToGigabytes_spec n := by
  unfold bytes_to_gb bytesToGigabytes_spec
  norm_num

/-- C5 counterexample: on the fixture with total = 2^30 bytes and
used = 7516193 bytes, the returned record has total_gb = 1 > 0 but its
percentage_used (0.7, computed from the raw byte counts) differs from
round(used_gb / total_gb * 100, 1) = 1.0 computed from the rounded
2-decimal GB fields of the record. -/
theorem disk_percentage_from_gb_fields_cex :
    0 < (get_disk_usage diskFixtureCex).total_gb ∧
      (get_disk_usage diskFixtureCex).percentage_used ≠
        pyRound ((get_disk_usage diskFixtureCex).used_gb /
          (get_disk_usage diskFixtureCex).total_gb * 100) 1 := by
  have htot : (get_disk_usage diskFixtureCex).total_gb = 1 := by
    show bytes_to_gb (2 ^ 30) = 1
    rw [bytes_to_gb, pyRound_eq_low _ _ 100 (by norm_num) (by norm_num) (by norm_num)]
    norm_num
  have hused : (get_disk_usage diskFixtureCex).used_gb = 1 / 100 := by
    show bytes_to_gb 7516193 = 1 / 100
    rw [bytes_to_gb, pyRound_eq_high _ _ 0 (by norm_num) (by norm_num) (by norm_num)]
    norm_num
  have hperc : (get_disk_usage diskFixtureCex).percentage_used = 7 / 10 := by
    show pyRound (((7516193 : ℕ) : ℚ) / (((2 ^ 30 : ℕ) : ℕ) : ℚ) * 100) 1 = 7 / 10
    rw [pyRound_eq_low _ _ 7 (by norm_num) (by norm_num) (by norm_num)]
    norm_num
  have hclaim : pyRound ((1 : ℚ) / 100 / 1 * 100) 1 = 1 := by
    rw [pyRound_eq_low _ _ 10 (by norm_num) (by norm_num) (by norm_num)]
    norm_num
  refine ⟨by rw [htot]; norm_num, ?_⟩
  rw [htot, hused, hperc, hclaim]
  norm_num

/-- C5 (amended): the percentage_used field of get_disk_usage equals
round(used / total * 100, 1) computed from the provider's raw byte
counts; it only approximately agrees with the same formula over the
rounded GB fields of the record. -/
theorem disk_percentage_from_raw_bytes (d : DiskUsageBytes)
    (h : 0 < (get_disk_usage d).total_gb) :
    (get_disk_usage d).percentage_used =
      pyRound (((d.used : ℚ) / (d.total : ℚ)) * 100) 1 := rfl

/-- Witness for C5 (amended) at a concrete fixture with positive total. -/
theorem disk_percentage_from_raw_bytes_witness :
    0 < (get_disk_usage diskFix).total_gb ∧
      (get_disk_usage diskFix).percentage_used =
        pyRound (((diskFix.used : ℚ) / (diskFix.total : ℚ)) * 100) 1 := by
  have h : 0 < (get_disk_usage diskFix).total_gb := by
    show (0 : ℚ) < bytes_to_gb (2 ^ 30)
    rw [bytes_to_gb, pyRound_eq_low _ _ 100 (by norm_num) (by norm_num) (by norm_num)]
    norm_num
  exact ⟨h, disk_percentage_from_raw_bytes diskFix h⟩

/-- C7: the load_average list of get_cpu_usage always has exactly 3
entries, and when the provider cannot report a load average (getloadavg
raises, modelled as loadavg = none) it is exactly [0, 0, 0] instead of
the operation failing. -/
theorem cpu_load_average_length_and_sentinel (p : CpuProviderSample) :
    (get_cpu_usage p).load_average.length = 3 ∧
      (p.loadavg = none → (get_cpu_usage p).load_average = [0, 0, 0]) := by
  have h0 : pyRound 0 2 = 0 := by
    rw [pyRound_eq_low 0 2 0 (by norm_num) (by norm_num) (by norm_num)]
    norm_num
  constructor
  · rcases h : p.loadavg with _ | ⟨a, b, c⟩ <;> simp [get_cpu_usage, h]
  · intro h
    simp [get_cpu_usage, h, h0]

/-- Witness for C7 at a provider with an unsupported load average. -/
theorem cpu_load_average_length_and_sentinel_witness :
    (get_cpu_usage cpuFix).load_average = [0, 0, 0] ∧
      (get_cpu_usage cpuFix).load_average.length = 3 :=
  ⟨(cpu_load_average_length_and_sentinel cpuFix).2 rfl,
   (cpu_load_average_length_and_sentinel cpuFix).1⟩

/-- C1 counterexample: on output whose matching line ends in the
non-numeric token abc, get_port_info_netstat does not fail: the
ValueError from int(parts[-1]) is caught by the same except handler as
launch failures, and the call returns the sentinel PortRecord with all
optional fields absent and an Error raw_line. -/
theorem port_lookup_parse_failure_is_sentinel_cex :
    get_port_info_netstat 8080
        (Except.ok "  TCP    0.0.0.0:8080    0.0.0.0:0    LISTENING    abc\n") =
      errorRecord 8080 "invalid literal for int() with base 10: abc" ∧
      (get_port_info_netstat 8080
        (Except.ok "  TCP    0.0.0.0:8080    0.0.0.0:0    LISTENING    abc\n")).pid = none := by
  exact ⟨by decide, by decide⟩

/-- C1 (amended): when the first processable matching line (contains
the port needle and splits into at least 5 fields) has a last token that
int() rejects, the lookup returns the Error sentinel PortRecord carrying
the parse-failure message, rather than propagating the error. -/
theorem port_lookup_parse_failure_sentinel (port : ℤ) (output : String)
    (pre : List String) (line : String) (post : List String) (msg : String)
    (hsplit : pySplitlines output = pre ++ line :: post)
    (hpre : ∀ l ∈ pre, strContains l (needle port) = false ∨
      (reSplitWs (pyStrip l)).length < 5)
    (hc : strContains line (needle port) = true)
    (hlen : 5 ≤ (reSplitWs (pyStrip line)).length)
    (hpid : pyInt ((reSplitWs (pyStrip line)).getLastD "") = Except.error msg) :
    get_port_info_netstat port (Except.ok output) = errorRecord port msg := by
  have hb : portScanBody port (pySplitlines output) = Except.error msg := by
    rw [hsplit, portScanBody_skip_all port pre (line :: post) hpre]
    simp only [portScanBody]
    rw [if_pos hc, if_pos hlen, hpid]
  simp [get_port_info_netstat, hb]

/-- Witness for C1 (amended): a matching UDP line whose last token 12x34
is rejected by int() yields the Error sentinel record. -/
theorem port_lookup_parse_failure_sentinel_witness :
    get_port_info_netstat 8080
        (Except.ok "  UDP    0.0.0.0:53    0.0.0.0:8080    other    12x34\n") =
      errorRecord 8080 "invalid literal for int() with base 10: 12x34" :=
  port_lookup_parse_failure_sentinel 8080 _ []
    "  UDP    0.0.0.0:53    0.0.0.0:8080    other    12x34" [] _
    (by decide) (by decide) (by decide) (by decide) rfl

/-- C2: get_port_info_netstat never raises: a command launch failure and
an exception escaping the parsing loop (the only one is the int() parse
failure) are both converted by the enclosing except handler into the
sentinel record embedded in the normal result shape.  The embedding
returns a plain NetstatPortInfo for every command outcome, and every
failure mode yields the Error sentinel. -/
theorem port_lookup_never_raises (port : ℤ) (cmd : Except String String) (e : String)
    (h : cmd = Except.error e ∨
      ∃ output, cmd = Except.ok output ∧
        portScanBody port (pySplitlines output) = Except.error e) :
    get_port_info_netstat port cmd = errorRecord port e := by
  rcases h with h | ⟨output, rfl, hb⟩
  · rw [h]
    rfl
  · simp [get_port_info_netstat, hb]

/-- Witness for C2 at a command launch failure. -/
theorem port_lookup_never_raises_witness :
    get_port_info_netstat 8080 (Except.error "FileNotFoundError") =
      errorRecord 8080 "FileNotFoundError" :=
  port_lookup_never_raises 8080 (Except.error "FileNotFoundError") "FileNotFoundError"
    (Or.inl rfl)

/-- C3: for the first line that contains the port needle and splits into
at least 5 whitespace-separated fields (earlier lines either lack the
needle or are too short), with a last field that parses as an integer,
get_port_info_netstat returns the populated record: protocol = field 0,
local address = field 1, foreign address = field 2, state = field 3 for
TCP (case-insensitive) and the empty string otherwise, pid = last field,
raw_line = the line stripped. -/
theorem port_lookup_first_match_fields (port : ℤ) (output : String)
    (pre : List String) (line : String) (post : List String) (pid : ℤ)
    (hsplit : pySplitlines output = pre ++ line :: post)
    (hpre : ∀ l ∈ pre, strContains l (needle port) = false ∨
      (reSplitWs (pyStrip l)).length < 5)
    (hc : strContains line (needle port) = true)
    (hlen : 5 ≤ (reSplitWs (pyStrip line)).length)
    (hpid : pyInt ((reSplitWs (pyStrip line)).getLastD "") = Except.ok pid) :
    get_port_info_netstat port (Except.ok output) =
      { port := port
        pid := some pid
        protocol := some ((reSplitWs (pyStrip line)).getD 0 "")
        local_address := some ((reSplitWs (pyStrip line)).getD 1 "")
        foreign_address := some ((reSplitWs (pyStrip line)).getD 2 "")
        state := some (if pyLower ((reSplitWs (pyStrip line)).getD 0 "") = "tcp"
                       then (reSplitWs (pyStrip line)).getD 3 "" else "")
        raw_line := pyStrip line } := by
  have hb : portScanBody port (pySplitlines output) =
      Except.ok
        { port := port
          pid := some pid
          protocol := some ((reSplitWs (pyStrip line)).getD 0 "")
          local_address := some ((reSplitWs (pyStrip line)).getD 1 "")
          foreign_address := some ((reSplitWs (pyStrip line)).getD 2 "")
          state := some (if pyLower ((reSplitWs (pyStrip line)).getD 0 "") = "tcp"
                         then (reSplitWs (pyStrip line)).getD 3 "" else "")
          raw_line := pyStrip line } := by
    rw [hsplit, portScanBody_skip_all port pre (line :: post) hpre]
    simp only [portScanBody]
    rw [if_pos hc, if_pos hlen, hpid]
  simp [get_port_info_netstat, hb]

/-- Witness for C3 at the spec fixture line for port 8080. -/
theorem port_lookup_first_match_fields_witness :
    get_port_info_netstat 8080
        (Except.ok "  TCP    0.0.0.0:8080    0.0.0.0:0    LISTENING    1234\n") =
      { port := 8080, pid := some 1234, protocol := some "TCP",
        local_address := some "0.0.0.0:8080", foreign_address := some "0.0.0.0:0",
        state := some "LISTENING",
        raw_line := "TCP    0.0.0.0:8080    0.0.0.0:0    LISTENING    1234" } :=
  (port_lookup_first_match_fields 8080 _ []
    "  TCP    0.0.0.0:8080    0.0.0.0:0    LISTENING    1234" [] 1234
    (by decide) (by decide) (by decide) (by decide) rfl).trans (by decide)

/-- C6: when no output line contains the port needle, the result is the
record with pid, protocol, local_address, foreign_address and state all
absent and raw_line equal to the fixed sentinel Not found. -/
theorem port_lookup_no_match_not_found (port : ℤ) (output : String)
    (h : ∀ l ∈ pySplitlines output, strContains l (needle port) = false) :
    get_port_info_netstat port (Except.ok output) = notFoundRecord port := by
  have hb : portScanBody port (pySplitlines output) = Except.ok (notFoundRecord port) := by
    have h2 := portScanBody_skip_all port (pySplitlines output) []
      (fun l hl => Or.inl (h l hl))
    rw [List.append_nil] at h2
    exact h2
  simp [get_port_info_netstat, hb]

/-- Witness for C6: no line of the fixture output mentions port 9999. -/
theorem port_lookup_no_match_not_found_witness :
    get_port_info_netstat 9999
        (Except.ok "  TCP    0.0.0.0:8080    0.0.0.0:0    LISTENING    1234\n") =
      notFoundRecord 9999 :=
  port_lookup_no_match_not_found 9999 _ (by decide)

/-- C10: a line containing the port needle but splitting into fewer than
5 fields is skipped and scanning continues; when every needle-containing
line of the output is that short, the lookup returns the Not found
record instead of using those lines or failing. -/
theorem port_lookup_short_lines_skipped (port : ℤ) (line : String) (rest : List String)
    (output : String)
    (h1 : strContains line (needle port) = true)
    (h2 : (reSplitWs (pyStrip line)).length < 5)
    (h3 : ∀ l ∈ pySplitlines output, strContains l (needle port) = true →
      (reSplitWs (pyStrip l)).length < 5) :
    portScanBody port (line :: rest) = portScanBody port rest ∧
      get_port_info_netstat port (Except.ok output) = notFoundRecord port := by
  constructor
  · exact portScanBody_cons_skip port line rest (Or.inr h2)
  · have hb : portScanBody port (pySplitlines output) = Except.ok (notFoundRecord port) := by
      have hcond : ∀ l ∈ pySplitlines output, strContains l (needle port) = false ∨
          (reSplitWs (pyStrip l)).length < 5 := by
        intro l hl
        cases hc : strContains l (needle port) with
        | false => exact Or.inl rfl
        | true => exact Or.inr (h3 l hl hc)
      have h2b := portScanBody_skip_all port (pySplitlines output) [] hcond
      rw [List.append_nil] at h2b
      exact h2b
    simp [get_port_info_netstat, hb]

/-- Witness for C10: a matching UDP line with only 3 fields is skipped
and the overall lookup reports Not found. -/
theorem port_lookup_short_lines_skipped_witness :
    portScanBody 7777 ["UDP 0.0.0.0:7777 *:*"] = portScanBody 7777 [] ∧
      get_port_info_netstat 7777 (Except.ok "UDP 0.0.0.0:7777 *:*\n") =
        notFoundRecord 7777 :=
  port_lookup_short_lines_skipped 7777 "UDP 0.0.0.0:7777 *:*" []
    "UDP 0.0.0.0:7777 *:*\n" (by decide) (by decide) (by decide)

/-- C8 counterexample: for a boot timestamp 90061 seconds before now, the
returned string is not the bare "1 days, 1 hours, 1 minutes" the claim
quotes: the source prefixes it with System uptime. -/
theorem uptime_returned_string_cex :
    get_system_uptime 100000 (Except.ok (100000 - 90061)) ≠
      "1 days, 1 hours, 1 minutes" := by
  rw [uptime_ok_90061 100000]
  decide

/-- C8 (amended): the uptime formatter decomposes elapsed = now − boot by
integer floor division into days, hours, minutes with no carrying beyond
days, returning "System uptime: 1 days, 1 hours, 1 minutes" for an
elapsed time of 90061 seconds; on provider failure it returns the fixed
"Unable to get uptime: <message>" string rather than raising. -/
theorem uptime_format_and_failure_sentinel (now : ℚ) (e : String) :
    get_system_uptime now (Except.ok (now - 90061)) =
        "System uptime: 1 days, 1 hours, 1 minutes" ∧
      get_system_uptime now (Except.error e) = "Unable to get uptime: " ++ e := by
  refine ⟨uptime_ok_90061 now, ?_⟩
  show "Unable to get uptime: " ++ e ++ "" = "Unable to get uptime: " ++ e
  exact String.append_empty _

/-- C9: the aggregator fails as a whole as soon as one of the four
collectors fails (no partial SystemInfo is ever returned), and when all
four succeed it composes their records with the platform identity map. -/
theorem system_info_all_or_nothing (t : Except String TimeInfo)
    (m : Except String VirtualMemory) (c : Except String CpuProviderSample)
    (d : Except String DiskUsageBytes) (pinfo : List (String × String)) :
    (((∃ e, t = Except.error e) ∨ (∃ e, m = Except.error e) ∨
      (∃ e, c = Except.error e) ∨ (∃ e, d = Except.error e)) →
      ∀ s, get_system_info t m c d pinfo ≠ Except.ok s) ∧
      (∀ ti mem cpu disk, t = Except.ok ti → m = Except.ok mem →
        c = Except.ok cpu → d = Except.ok disk →
        get_system_info t m c d pinfo = Except.ok
          { time_info := ti
            memory_info := get_memory_usage mem
            cpu_info := get_cpu_usage cpu
            disk_info := get_disk_usage disk
            platform_info := pinfo }) := by
  constructor
  · intro h s hc
    rcases t with e1 | ti
    · exact Except.noConfusion hc
    · rcases m with e2 | mem
      · exact Except.noConfusion hc
      · rcases c with e3 | cpu
        · exact Except.noConfusion hc
        · rcases d with e4 | disk
          · exact Except.noConfusion hc
          · rcases h with ⟨e, he⟩ | ⟨e, he⟩ | ⟨e, he⟩ | ⟨e, he⟩ <;>
              exact Except.noConfusion he
  · intro ti mem cpu disk h1 h2 h3 h4
    subst h1; subst h2; subst h3; subst h4
    rfl

/-- Witness for C9: a failing CPU collector makes the aggregation fail,
and with all four collectors succeeding the composed record is built. -/
theorem system_info_all_or_nothing_witness :
    (∀ s, get_system_info (Except.ok timeFix) (Except.ok memFix)
        (Except.error "cpu failed") (Except.ok diskFix) [] ≠ Except.ok s) ∧
      get_system_info (Except.ok timeFix) (Except.ok memFix) (Except.ok cpuFix)
          (Except.ok diskFix) [] =
        Except.ok
          { time_info := timeFix
            memory_info := get_memory_usage memFix
            cpu_info := get_cpu_usage cpuFix
            disk_info := get_disk_usage diskFix
            platform_info := [] } :=
  ⟨(system_info_all_or_nothing (Except.ok timeFix) (Except.ok memFix)
      (Except.error "cpu failed") (Except.ok diskFix) []).1
      (Or.inr (Or.inr (Or.inl ⟨"cpu failed", rfl⟩))),
   (system_info_all_or_nothing (Except.ok timeFix) (Except.ok memFix)
      (Except.ok cpuFix) (Except.ok diskFix) []).2 timeFix memFix cpuFix diskFix
      rfl rfl rfl rfl⟩

end SystemInfoServer
